import Mathlib

/-!
Verification of the browser-only OAuth 2.0 Authorization-Code-with-PKCE
coordinator of the joplin-online-client repository.

The TypeScript sources are embedded shallowly:

* `src/components/CredentialForm.tsx` — the `Credentials` data model.
* `src/App.tsx` — `handleOAuthCallback` (the page-load redirect handler)
  and `handleConnect`, modelled as pure functions over an explicit
  session-store record, with the browser primitives (`fetch` to the token
  endpoint, `joplinApi.connect`, `crypto`) passed in as oracle parameters.
* `src/services/oneDriveOAuth.ts` — `OneDriveOAuthService`
  (PKCE generation, authorization URL building, token exchange body).
* `src/components/OneDriveAuth.tsx` — `generateRandomString` and the
  component-level `exchangeCodeForToken` body.
* `src/services/joplinApi.ts` — `JoplinApiService.connect` / `isInitialized`.
* `src/services/profileManager.ts` — `ProfileManager`.

JavaScript `sessionStorage` is modelled as a record with one field per key
used by the program; `JSON.stringify`/`JSON.parse` at the store boundary are
modelled as functions into an explicit JSON value type.
-/

/-- JSON values as produced by JSON.stringify on the credential objects:
strings, booleans, numbers and objects (a field that is `undefined` in
JavaScript is simply absent from the field list, as stringify drops it). -/
inductive Json where
  | str (s : String)
  | bool (b : Bool)
  | num (n : Nat)
  | obj (fields : List (String × Json))

/-- Key lookup in a JSON object field list (JavaScript property access). -/
def lookupField (k : String) : List (String × Json) → Option Json
  | [] => none
  | (k1, v) :: rest => if k1 = k then some v else lookupField k rest

/-- Key lookup in a query-parameter or form-body association list. -/
def lookupKey (k : String) : List (String × String) → Option String
  | [] => none
  | (k1, v) :: rest => if k1 = k then some v else lookupKey k rest

/-- JavaScript `a || b` on a possibly-absent string: an absent or empty
string falls through to the default. -/
def jsOr (a : Option String) (b : String) : String :=
  match a with
  | some s => if s = "" then b else s
  | none => b

/-- JavaScript falsiness of a possibly-absent string (`!x`). -/
def jsBlank (a : Option String) : Bool :=
  match a with
  | none => true
  | some s => s = ""

/-- Storage backend tags of `StorageType` in CredentialForm.tsx. -/
inductive CredType where
  | FileSystem
  | WebDAV
  | OneDrive
  | JoplinServer
  | GoogleDrive
deriving DecidableEq, Repr

/-- Name of a storage type as it appears in the source string union. -/
def CredType.toName : CredType → String
  | .FileSystem => "FileSystem"
  | .WebDAV => "WebDAV"
  | .OneDrive => "OneDrive"
  | .JoplinServer => "JoplinServer"
  | .GoogleDrive => "GoogleDrive"

/-- Inverse of `CredType.toName` on the five legal tags. -/
def CredType.fromName (s : String) : Option CredType :=
  if s = "FileSystem" then some .FileSystem
  else if s = "WebDAV" then some .WebDAV
  else if s = "OneDrive" then some .OneDrive
  else if s = "JoplinServer" then some .JoplinServer
  else if s = "GoogleDrive" then some .GoogleDrive
  else none

/-- The `filesystem` sub-object of `Credentials`. -/
structure FileSystemCreds where
  syncPath : String
deriving DecidableEq, Repr

/-- The `webdav` sub-object of `Credentials`. -/
structure WebDAVCreds where
  username : String
  password : String
  path : String
  ignoreTlsErrors : Option Bool
deriving DecidableEq, Repr

/-- The `onedrive` sub-object of `Credentials` (all fields optional). -/
structure OneDriveCreds where
  clientId : Option String
  clientSecret : Option String
  authToken : Option String
  isPublic : Option Bool
  redirectUri : Option String
  basePath : Option String
deriving DecidableEq, Repr

/-- The `joplinserver` sub-object of `Credentials`. -/
structure JoplinServerCreds where
  username : String
  password : String
  path : String
  userContentPath : String
deriving DecidableEq, Repr

/-- The `googledrive` sub-object of `Credentials`. -/
structure GoogleDriveCreds where
  clientId : Option String
  clientSecret : Option String
  authToken : Option String
  isPublic : Option Bool
deriving DecidableEq, Repr

/-- The `Credentials` interface of CredentialForm.tsx: a type tag plus one
optional sub-object per storage backend. -/
structure Credentials where
  type : CredType
  filesystem : Option FileSystemCreds
  webdav : Option WebDAVCreds
  onedrive : Option OneDriveCreds
  joplinserver : Option JoplinServerCreds
  googledrive : Option GoogleDriveCreds
deriving DecidableEq, Repr

/-- A present optional field becomes one JSON object entry; an absent one
is dropped, exactly as JSON.stringify drops `undefined` fields. -/
def optField (name : String) : Option Json → List (String × Json)
  | none => []
  | some j => [(name, j)]

/-- JSON encoding of the `filesystem` sub-object. -/
def FileSystemCreds.toJson (c : FileSystemCreds) : Json :=
  .obj [( "syncPath", .str c.syncPath)]

/-- JSON encoding of the `webdav` sub-object. -/
def WebDAVCreds.toJson (c : WebDAVCreds) : Json :=
  .obj ([( "username", .str c.username), ( "password", .str c.password),
         ( "path", .str c.path)] ++
        optField "ignoreTlsErrors" (c.ignoreTlsErrors.map .bool))

/-- JSON encoding of the `onedrive` sub-object. -/
def OneDriveCreds.toJson (c : OneDriveCreds) : Json :=
  .obj (optField "clientId" (c.clientId.map .str) ++
        optField "clientSecret" (c.clientSecret.map .str) ++
        optField "authToken" (c.authToken.map .str) ++
        optField "isPublic" (c.isPublic.map .bool) ++
        optField "redirectUri" (c.redirectUri.map .str) ++
        optField "basePath" (c.basePath.map .str))

/-- JSON encoding of the `joplinserver` sub-object. -/
def JoplinServerCreds.toJson (c : JoplinServerCreds) : Json :=
  .obj [( "username", .str c.username), ( "password", .str c.password),
        ( "path", .str c.path), ( "userContentPath", .str c.userContentPath)]

/-- JSON encoding of the `googledrive` sub-object. -/
def GoogleDriveCreds.toJson (c : GoogleDriveCreds) : Json :=
  .obj (optField "clientId" (c.clientId.map .str) ++
        optField "clientSecret" (c.clientSecret.map .str) ++
        optField "authToken" (c.authToken.map .str) ++
        optField "isPublic" (c.isPublic.map .bool))

/-- JSON encoding of a whole `Credentials` value, the shape produced by
JSON.stringify(credentials) in App.tsx. -/
def Credentials.toJson (c : Credentials) : Json :=
  .obj ([( "type", .str c.type.toName)] ++
        optField "filesystem" (c.filesystem.map FileSystemCreds.toJson) ++
        optField "webdav" (c.webdav.map WebDAVCreds.toJson) ++
        optField "onedrive" (c.onedrive.map OneDriveCreds.toJson) ++
        optField "joplinserver" (c.joplinserver.map JoplinServerCreds.toJson) ++
        optField "googledrive" (c.googledrive.map GoogleDriveCreds.toJson))

/-- Read a required string-valued field. -/
def getReqStr (fields : List (String × Json)) (k : String) : Option String :=
  match lookupField k fields with
  | some (.str s) => some s
  | _ => none

/-- Read an optional string-valued field (absent is fine). -/
def getOptStr (fields : List (String × Json)) (k : String) : Option (Option String) :=
  match lookupField k fields with
  | none => some none
  | some (.str s) => some (some s)
  | some _ => none

/-- Read an optional boolean-valued field (absent is fine). -/
def getOptBool (fields : List (String × Json)) (k : String) : Option (Option Bool) :=
  match lookupField k fields with
  | none => some none
  | some (.bool b) => some (some b)
  | some _ => none

/-- Read an optional sub-object field with a given decoder. -/
def getOptWith (dec : Json → Option α) (fields : List (String × Json)) (k : String) :
    Option (Option α) :=
  match lookupField k fields with
  | none => some none
  | some j => (dec j).map some

/-- Decode the `filesystem` sub-object. -/
def FileSystemCreds.fromJson : Json → Option FileSystemCreds
  | .obj f => do
      let syncPath ← getReqStr f "syncPath"
      pure ⟨syncPath⟩
  | _ => none

/-- Decode the `webdav` sub-object. -/
def WebDAVCreds.fromJson : Json → Option WebDAVCreds
  | .obj f => do
      let username ← getReqStr f "username"
      let password ← getReqStr f "password"
      let path ← getReqStr f "path"
      let tls ← getOptBool f "ignoreTlsErrors"
      pure ⟨username, password, path, tls⟩
  | _ => none

/-- Decode the `onedrive` sub-object. -/
def OneDriveCreds.fromJson : Json → Option OneDriveCreds
  | .obj f => do
      let clientId ← getOptStr f "clientId"
      let clientSecret ← getOptStr f "clientSecret"
      let authToken ← getOptStr f "authToken"
      let isPublic ← getOptBool f "isPublic"
      let redirectUri ← getOptStr f "redirectUri"
      let basePath ← getOptStr f "basePath"
      pure ⟨clientId, clientSecret, authToken, isPublic, redirectUri, basePath⟩
  | _ => none

/-- Decode the `joplinserver` sub-object. -/
def JoplinServerCreds.fromJson : Json → Option JoplinServerCreds
  | .obj f => do
      let username ← getReqStr f "username"
      let password ← getReqStr f "password"
      let path ← getReqStr f "path"
      let ucp ← getReqStr f "userContentPath"
      pure ⟨username, password, path, ucp⟩
  | _ => none

/-- Decode the `googledrive` sub-object. -/
def GoogleDriveCreds.fromJson : Json → Option GoogleDriveCreds
  | .obj f => do
      let clientId ← getOptStr f "clientId"
      let clientSecret ← getOptStr f "clientSecret"
      let authToken ← getOptStr f "authToken"
      let isPublic ← getOptBool f "isPublic"
      pure ⟨clientId, clientSecret, authToken, isPublic⟩
  | _ => none

/-- Decode a whole `Credentials` value (the typed view of JSON.parse of a
stored pending-connection string). -/
def Credentials.fromJson : Json → Option Credentials
  | .obj f => do
      let tname ← getReqStr f "type"
      let t ← CredType.fromName tname
      let fs ← getOptWith FileSystemCreds.fromJson f "filesystem"
      let wd ← getOptWith WebDAVCreds.fromJson f "webdav"
      let od ← getOptWith OneDriveCreds.fromJson f "onedrive"
      let js ← getOptWith JoplinServerCreds.fromJson f "joplinserver"
      let gd ← getOptWith GoogleDriveCreds.fromJson f "googledrive"
      pure ⟨t, fs, wd, od, js, gd⟩
  | _ => none

/-- The sessionStorage keys used by the OAuth flow in App.tsx, one field per
key; this is the Continuation Store of the spec plus the legacy
oauth_code key that the catch branch also clears. -/
structure SessionStore where
  pendingCreds : Option Json
  processedCode : Option String
  codeVerifier : Option String
  oauthCode : Option String

/-- App.tsx line 243: sessionStorage.setItem of the stringified credentials
under pending_oauth_credentials. -/
def writePendingCredentials (creds : Credentials) (s : SessionStore) : SessionStore :=
  { s with pendingCreds := some creds.toJson }

/-- App.tsx lines 73-76: getItem of pending_oauth_credentials followed by
JSON.parse into a credentials object. -/
def readPendingCredentials (s : SessionStore) : Option Credentials :=
  s.pendingCreds.bind Credentials.fromJson

/-- The standard base64 alphabet used by the browser btoa primitive. -/
def base64Chars : List Char :=
  ( "ABCDEFGHIJKLMNOPQRSTUVWXYZabcdefghijklmnopqrstuvwxyz0123456789+/").toList

/-- Character of the base64 alphabet at a sextet index. -/
def sextetChar (i : Nat) : Char := base64Chars.getD i 'A'

/-- Sextet indices of a byte list, three bytes at a time, with the short
final group handled as btoa does (bits padded with zeros on the right). -/
def base64Sextets : List Nat → List Nat
  | a :: b :: c :: rest =>
      a / 4 :: (a % 4 * 16 + b / 16) :: (b % 16 * 4 + c / 64) :: c % 64 ::
        base64Sextets rest
  | [a, b] => [a / 4, a % 4 * 16 + b / 16, b % 16 * 4]
  | [a] => [a / 4, a % 4 * 16]
  | [] => []

/-- Number of padding characters btoa appends for a given byte count. -/
def base64PadCount (n : Nat) : Nat :=
  match n % 3 with
  | 0 => 0
  | 1 => 2
  | _ => 1

/-- Characters of btoa(String.fromCharCode(...bytes)): alphabet characters
followed by the padding. -/
def btoaChars (bytes : List Nat) : List Char :=
  (base64Sextets bytes).map sextetChar ++
    List.replicate (base64PadCount bytes.length) '='

/-- The two character replacements of base64URLEncode in
OneDriveOAuthService (plus to minus and slash to underscore). -/
def urlSafeChar (c : Char) : Char :=
  if c = '+' then '-' else if c = '/' then '_' else c

/-- Drop every trailing padding character (the regex replace of a trailing
equals-sign run with the empty string). -/
def stripTrailingPad (l : List Char) : List Char :=
  (l.reverse.dropWhile (fun c => c = '=')).reverse

/-- OneDriveOAuthService.base64URLEncode: btoa, URL-safe replacements,
padding stripped. -/
def base64URLEncode (bytes : List Nat) : String :=
  String.mk (stripTrailingPad ((btoaChars bytes).map urlSafeChar))

/-- UTF-8 bytes of a string, as TextEncoder().encode produces them. -/
def utf8Bytes (s : String) : List Nat :=
  s.toUTF8.toList.map (fun b => b.toNat)

/-- OneDriveOAuthService.generateCodeVerifier: base64url-encode the 32
bytes delivered by crypto.getRandomValues. -/
def generateCodeVerifier (randomBytes : List Nat) : String :=
  base64URLEncode randomBytes

/-- OneDriveOAuthService.generateCodeChallenge: base64url-encode the
SHA-256 digest (passed as an oracle for the crypto.subtle primitive) of
the UTF-8 bytes of the verifier. -/
def generateCodeChallenge (sha256 : List Nat → List Nat) (verifier : String) : String :=
  base64URLEncode (sha256 (utf8Bytes verifier))

/-- An authorization URL: the fixed endpoint plus its query parameters
(the URLSearchParams the source appends to the endpoint string). -/
structure AuthUrl where
  endpoint : String
  params : List (String × String)
deriving DecidableEq, Repr

/-- Result record of getAuthUrlWithPKCE. -/
structure AuthUrlResult where
  authUrl : AuthUrl
  codeVerifier : String
deriving DecidableEq, Repr

/-- The scope string of OneDriveOAuthService. -/
def oneDriveScope : String := "files.readwrite offline_access sites.readwrite.all"

/-- OneDriveOAuthService.getAuthUrlWithPKCE: generate the verifier, derive
the challenge, and build the consumers-endpoint authorization URL. -/
def getAuthUrlWithPKCE (sha256 : List Nat → List Nat) (randomBytes : List Nat)
    (clientId redirectUri : String) : AuthUrlResult :=
  let codeVerifier := generateCodeVerifier randomBytes
  let codeChallenge := generateCodeChallenge sha256 codeVerifier
  { authUrl :=
      { endpoint := "https://login.microsoftonline.com/consumers/oauth2/v2.0/authorize",
        params :=
          [( "client_id", clientId),
           ( "scope", oneDriveScope),
           ( "response_type", "code"),
           ( "redirect_uri", redirectUri),
           ( "prompt", "login"),
           ( "code_challenge", codeChallenge),
           ( "code_challenge_method", "S256")] },
    codeVerifier := codeVerifier }

/-- The 66-character charset of generateRandomString in OneDriveAuth.tsx. -/
def verifierCharset : List Char :=
  ( "ABCDEFGHIJKLMNOPQRSTUVWXYZabcdefghijklmnopqrstuvwxyz0123456789-._~").toList

/-- generateRandomString of OneDriveAuth.tsx: one charset character per
random byte, selected by the byte modulo the charset length; the length
argument of the source is the length of the random byte list. -/
def generateRandomString (randomValues : List Nat) : String :=
  String.mk (randomValues.map (fun b => verifierCharset.getD (b % verifierCharset.length) 'A'))

/-- Token response JSON of the provider, the OneDriveAuthToken interface. -/
structure TokenData where
  access_token : String
  refresh_token : String
  token_type : String
  expires_in : Nat
  scope : String
deriving DecidableEq, Repr

/-- Escape of a string for JSON output (quote and backslash). -/
def jsonEscape (s : String) : String :=
  String.join (s.toList.map (fun c =>
    if c = '"' then "\\\"" else if c = '\\' then "\\\\" else String.singleton c))

/-- JSON.stringify of a token response object, as App.tsx stores it into
the authToken credential field. -/
def serializeTokenData (t : TokenData) : String :=
  "\x7b\"access_token\":\"" ++ jsonEscape t.access_token ++
  "\",\"refresh_token\":\"" ++ jsonEscape t.refresh_token ++
  "\",\"token_type\":\"" ++ jsonEscape t.token_type ++
  "\",\"expires_in\":" ++ toString t.expires_in ++
  ",\"scope\":\"" ++ jsonEscape t.scope ++ "\"\x7d"

/-- A POST request to the token endpoint: URL, content type, form body. -/
structure TokenCall where
  url : String
  contentType : String
  body : List (String × String)
deriving DecidableEq, Repr

/-- The consumers token endpoint of OneDriveOAuthService. -/
def tokenEndpoint : String := "https://login.microsoftonline.com/consumers/oauth2/v2.0/token"

/-- Form body of OneDriveOAuthService.exchangeCodeForToken: PKCE public
client, code verifier in place of a client secret. -/
def exchangeCodeBody (clientId code redirectUri codeVerifier : String) :
    List (String × String) :=
  [( "client_id", clientId),
   ( "code", code),
   ( "redirect_uri", redirectUri),
   ( "grant_type", "authorization_code"),
   ( "code_verifier", codeVerifier)]

/-- The full token-exchange POST of OneDriveOAuthService.exchangeCodeForToken. -/
def exchangeCodeCall (clientId code redirectUri codeVerifier : String) : TokenCall :=
  { url := tokenEndpoint,
    contentType := "application/x-www-form-urlencoded",
    body := exchangeCodeBody clientId code redirectUri codeVerifier }

/-- Form body of the component-level exchangeCodeForToken in
OneDriveAuth.tsx (adds the space-joined scope field). -/
def componentExchangeBody (clientId : String) (scopes : List String)
    (code redirectUri codeVerifier : String) : List (String × String) :=
  [( "client_id", clientId),
   ( "scope", String.intercalate " " scopes),
   ( "code", code),
   ( "redirect_uri", redirectUri),
   ( "grant_type", "authorization_code"),
   ( "code_verifier", codeVerifier)]

/-- Query parameters of the return URL that the handler reads: code,
error, error_description (the OAuthCallbackResult of the spec). -/
structure CallbackUrl where
  code : Option String
  error : Option String
  errorDescription : Option String
deriving DecidableEq, Repr

/-- External collaborators of the flow, passed as oracles: the token
endpoint fetch, the joplinApi connect-and-fetch step, the SHA-256
primitive, the random bytes delivered by crypto.getRandomValues, and the
page origin. -/
structure Env where
  net : String → String → Except String TokenData
  connectApi : Credentials → Except String Unit
  sha256 : List Nat → List Nat
  randomBytes : List Nat
  origin : String

/-- Terminal outcome of one page-load run of the redirect handler. -/
inductive Outcome where
  | idle
  | redirecting
  | manual
  | failed
  | completed
deriving DecidableEq, Repr

/-- Result of handleConnect: updated store, navigation target when the
OneDrive redirect was initiated, surfaced error, connected flag, and the
credentials saved into the active profile on success. -/
structure ConnectOutcome where
  store : SessionStore
  navigatedTo : Option AuthUrl
  errorMsg : Option String
  connected : Bool
  savedProfileCreds : Option Credentials

/-- App.tsx handleConnect, lines 264-292: the path taken for every
credentials value that does not trigger the OneDrive browser redirect.
GoogleDrive credentials are first persisted as the pending intent; then
joplinApi.connect plus getItems run (the connectApi oracle); success saves
the profile and clears the pending intent, failure surfaces the message
and deliberately keeps the pending intent for a retry. -/
def connectGeneral (env : Env) (creds : Credentials) (s : SessionStore) : ConnectOutcome :=
  let s1 := if creds.type = .GoogleDrive then writePendingCredentials creds s else s
  match env.connectApi creds with
  | .ok _ =>
      { store := { s1 with pendingCreds := none },
        navigatedTo := none, errorMsg := none, connected := true,
        savedProfileCreds := some creds }
  | .error e =>
      { store := s1, navigatedTo := none, errorMsg := some e,
        connected := false, savedProfileCreds := none }

/-- App.tsx handleConnect, lines 231-293. For OneDrive credentials with a
blank auth token the browser-based OAuth redirect is initiated: the
pending intent is written to the store, getAuthUrlWithPKCE runs, the
verifier is written to the store, and the page navigates away. -/
def handleConnect (env : Env) (creds : Credentials) (s : SessionStore) : ConnectOutcome :=
  match creds.onedrive with
  | some od =>
      if creds.type = .OneDrive ∧ jsBlank od.authToken then
        let s1 := writePendingCredentials creds s
        let r := getAuthUrlWithPKCE env.sha256 env.randomBytes
                   (jsOr od.clientId "") (jsOr od.redirectUri env.origin)
        { store := { s1 with codeVerifier := some r.codeVerifier },
          navigatedTo := some r.authUrl, errorMsg := none, connected := false,
          savedProfileCreds := none }
      else connectGeneral env creds s
  | none => connectGeneral env creds s

/-- Result of one page-load run of handleOAuthCallback: final store, the
visible URL query (none once history.replaceState stripped it), the
surfaced error, the connected flag, the credentials handed to the profile
store, every POST made to the token endpoint, and the terminal outcome. -/
structure HandlerResult where
  store : SessionStore
  urlQuery : Option CallbackUrl
  errorMsg : Option String
  connected : Bool
  savedProfileCreds : Option Credentials
  calls : List TokenCall
  outcome : Outcome

/-- App.tsx lines 60-70, the replay guard: if the processed-code marker
already equals the delivered code the delivery is skipped, otherwise the
marker is set to the code before anything else happens. -/
def replayGuardCheck (code : String) (s : SessionStore) : Option SessionStore :=
  if s.processedCode = some code then none
  else some { s with processedCode := some code }

/-- App.tsx lines 137-146, the catch branch of the callback: surface the
message, clear all four OAuth session keys, strip the URL. -/
def oauthCatch (s : SessionStore) (msg : String) (calls : List TokenCall) : HandlerResult :=
  { store := { s with pendingCreds := none, oauthCode := none,
                      processedCode := none, codeVerifier := none },
    urlQuery := none, errorMsg := some msg, connected := false,
    savedProfileCreds := none, calls := calls, outcome := .failed }

/-- App.tsx lines 133-136: a code with pending credentials of a non-OneDrive
type (or with no onedrive sub-object) is completed through handleConnect. -/
def callbackOtherService (env : Env) (creds : Credentials) (s : SessionStore) : HandlerResult :=
  let c := handleConnect env creds s
  { store := c.store, urlQuery := none, errorMsg := c.errorMsg,
    connected := c.connected, savedProfileCreds := c.savedProfileCreds,
    calls := [], outcome := if c.connected then .completed else .failed }

/-- App.tsx lines 46-156, handleOAuthCallback: the once-per-page-load
redirect coordinator. Reads the return URL; a provider error fails the
flow, clears the pending intent and strips the URL; a code is first run
through the replay guard, then matched against the stored pending intent
and PKCE verifier, and exchanged at the token endpoint; success attaches
the serialized token to the credentials, saves the profile, clears the
verifier and the replay marker, and reconnects through handleConnect. -/
def handleOAuthCallback (env : Env) (url : CallbackUrl) (s : SessionStore) : HandlerResult :=
  match url.error with
  | some e =>
      { store := { s with pendingCreds := none },
        urlQuery := none, errorMsg := some (jsOr url.errorDescription e),
        connected := false, savedProfileCreds := none, calls := [],
        outcome := .failed }
  | none =>
    match url.code with
    | none =>
        { store := s, urlQuery := some url, errorMsg := none, connected := false,
          savedProfileCreds := none, calls := [], outcome := .idle }
    | some code =>
      match replayGuardCheck code s with
      | none =>
          { store := s, urlQuery := some url, errorMsg := none, connected := false,
            savedProfileCreds := none, calls := [], outcome := .idle }
      | some s1 =>
        match s1.pendingCreds with
        | none =>
            { store := s1, urlQuery := none, errorMsg := none, connected := false,
              savedProfileCreds := none, calls := [], outcome := .manual }
        | some credsJson =>
          match Credentials.fromJson credsJson with
          | none => oauthCatch s1 "Failed to complete OAuth" []
          | some creds =>
            let s2 := { s1 with pendingCreds := none }
            match creds.onedrive with
            | some od =>
              if creds.type = .OneDrive then
                match s2.codeVerifier with
                | none =>
                    oauthCatch s2 "PKCE code_verifier not found. Please try logging in again." []
                | some v =>
                  let call := exchangeCodeCall (jsOr od.clientId "") code
                                (jsOr od.redirectUri env.origin) v
                  match env.net code v with
                  | .error e => oauthCatch s2 e [call]
                  | .ok tok =>
                    let s3 := { s2 with codeVerifier := none, processedCode := none }
                    let creds1 := { creds with
                      onedrive := some { od with authToken := some (serializeTokenData tok) } }
                    let c := handleConnect env creds1 s3
                    { store := c.store, urlQuery := none, errorMsg := c.errorMsg,
                      connected := c.connected, savedProfileCreds := some creds1,
                      calls := [call], outcome := .completed }
              else callbackOtherService env creds s2
            | none => callbackOtherService env creds s2

/-- Options object handed to the StorageAPI constructor by
JoplinApiService.connect, one case per backend. -/
inductive StorageSpec where
  | fileSystem (syncPath : String)
  | webDAV (username password path : String) (ignoreTlsErrors : Bool)
  | oneDrive (clientId clientSecret authToken : Option String) (isPublic : Bool)
      (hasOAuthFlowHandler : Bool) (redirectUri basePath : Option String)
  | joplinServer (username password path userContentPath : String)
  | googleDrive (clientId clientSecret authToken : Option String) (isPublic : Bool)
deriving DecidableEq, Repr

/-- In-memory state of the JoplinApiService singleton; the storage handle
type is abstract. -/
structure JoplinApiState (σ : Type) where
  storage : Option σ
  initialized : Bool
  hasOAuthFlowHandler : Bool

/-- The StorageAPI options built from a credentials value in
JoplinApiService.connect (joplinApi.ts lines 30-76), defaults included. -/
def buildStorageSpec (hasHandler : Bool) (creds : Credentials) : StorageSpec :=
  match creds.type with
  | .FileSystem => .fileSystem (jsOr (creds.filesystem.map (fun f => f.syncPath)) "")
  | .WebDAV =>
      .webDAV (jsOr (creds.webdav.map (fun w => w.username)) "")
        (jsOr (creds.webdav.map (fun w => w.password)) "")
        (jsOr (creds.webdav.map (fun w => w.path)) "")
        ((creds.webdav.bind (fun w => w.ignoreTlsErrors)).getD false)
  | .OneDrive =>
      .oneDrive (creds.onedrive.bind (fun o => o.clientId))
        (creds.onedrive.bind (fun o => o.clientSecret))
        (creds.onedrive.bind (fun o => o.authToken))
        ((creds.onedrive.bind (fun o => o.isPublic)).getD true)
        hasHandler
        (creds.onedrive.bind (fun o => o.redirectUri))
        (creds.onedrive.bind (fun o => o.basePath))
  | .JoplinServer =>
      .joplinServer (jsOr (creds.joplinserver.map (fun j => j.username)) "")
        (jsOr (creds.joplinserver.map (fun j => j.password)) "")
        (jsOr (creds.joplinserver.map (fun j => j.path)) "")
        (jsOr (creds.joplinserver.map (fun j => j.userContentPath)) "")
  | .GoogleDrive =>
      .googleDrive (creds.googledrive.bind (fun g => g.clientId))
        (creds.googledrive.bind (fun g => g.clientSecret))
        (creds.googledrive.bind (fun g => g.authToken))
        ((creds.googledrive.bind (fun g => g.isPublic)).getD true)

/-- JoplinApiService.connect (joplinApi.ts lines 26-91): construct the
storage adapter (ctor oracle), initialize it (initStorage oracle); any
failure resets the service to the disconnected state and rethrows the
message prefixed with the credential type. -/
def JoplinApiService.connect {σ : Type} (ctor : StorageSpec → Except String σ)
    (initStorage : σ → Except String Unit) (creds : Credentials)
    (st : JoplinApiState σ) : JoplinApiState σ × Except String Unit :=
  match ctor (buildStorageSpec st.hasOAuthFlowHandler creds) with
  | .error e =>
      ({ st with storage := none, initialized := false },
       .error ( "Failed to connect to " ++ creds.type.toName ++ ": " ++ e))
  | .ok stor =>
      match initStorage stor with
      | .error e =>
          ({ st with storage := none, initialized := false },
           .error ( "Failed to connect to " ++ creds.type.toName ++ ": " ++ e))
      | .ok _ =>
          ({ st with storage := some stor, initialized := true }, .ok ())

/-- JoplinApiService.isInitialized (joplinApi.ts lines 215-217). -/
def JoplinApiService.isInitialized {σ : Type} (st : JoplinApiState σ) : Bool :=
  st.initialized

/-- A saved profile record of profileManager.ts. -/
structure Profile where
  id : String
  name : String
  type : CredType
  credentials : Credentials
  lastUsed : Nat
  createdAt : Nat
deriving DecidableEq, Repr

/-- The localStorage slice owned by ProfileManager: the profile records
(keyed by profile id under the joplin_profile_ key family) and the
active-profile key. -/
structure ProfileStore where
  profiles : String → Option Profile
  activeId : Option String

/-- ProfileManager.getProfile. -/
def getProfile (profileId : String) (st : ProfileStore) : Option Profile :=
  st.profiles profileId

/-- ProfileManager.getActiveProfileId. -/
def getActiveProfileId (st : ProfileStore) : Option String :=
  st.activeId

/-- ProfileManager.getActiveProfile: read the active id, then the record. -/
def getActiveProfile (st : ProfileStore) : Option Profile :=
  match getActiveProfileId st with
  | none => none
  | some pid => getProfile pid st

/-- ProfileManager.clearActiveProfile. -/
def clearActiveProfile (st : ProfileStore) : ProfileStore :=
  { st with activeId := none }

/-- ProfileManager.deleteProfile (profileManager.ts lines 67-76): remove
the record, then clear the active pointer when it designated this id. -/
def deleteProfile (profileId : String) (st : ProfileStore) : ProfileStore :=
  let removed : ProfileStore :=
    { st with profiles := fun k => if k = profileId then none else st.profiles k }
  if getActiveProfileId removed = some profileId then clearActiveProfile removed
  else removed

/-- The RFC 7636 code-verifier charset of the spec: upper- and lower-case
letters, digits, minus, dot, underscore, tilde. -/
def allowedVerifierChar (c : Char) : Bool :=
  ( 'A' ≤ c && c ≤ 'Z') || ( 'a' ≤ c && c ≤ 'z') || ( '0' ≤ c && c ≤ '9') ||
    c = '-' || c = '.' || c = '_' || c = '~'

/-- Alphabet characters emitted for the final short group of a base64
encoding of n bytes. -/
def sextetsRemLen (n : Nat) : Nat :=
  match n % 3 with
  | 0 => 0
  | 1 => 2
  | _ => 3

/-- Helper: indexing with a default yields a list member or the default. -/
theorem listGetD_mem_or_eq {α : Type} :
    ∀ (l : List α) (i : Nat) (d : α), l.getD i d ∈ l ∨ l.getD i d = d
  | [], _, _ => .inr rfl
  | _ :: _, 0, _ => .inl (List.mem_cons_self _ _)
  | _ :: t, i + 1, d =>
      match listGetD_mem_or_eq t i d with
      | .inl h => .inl (List.mem_cons_of_mem _ h)
      | .inr h => .inr h

/-- Every character the sextet table can produce is in the base64 alphabet. -/
theorem sextetChar_mem (i : Nat) : sextetChar i ∈ base64Chars := by
  unfold sextetChar
  rcases listGetD_mem_or_eq base64Chars i 'A' with h | h
  · exact h
  · rw [h]; decide

/-- Shifting the byte count by a whole group leaves the tail length fixed. -/
theorem sextetsRemLen_add_three (n : Nat) : sextetsRemLen (n + 3) = sextetsRemLen n := by
  unfold sextetsRemLen
  rw [Nat.add_mod_right]

/-- Length of the sextet list in terms of the byte count. -/
theorem base64Sextets_length :
    ∀ l : List Nat, (base64Sextets l).length = 4 * (l.length / 3) + sextetsRemLen l.length
  | [] => rfl
  | [_] => by simp [base64Sextets, sextetsRemLen]
  | [_, _] => by simp [base64Sextets, sextetsRemLen]
  | a :: b :: c :: rest => by
      have ih := base64Sextets_length rest
      show (a / 4 :: _ :: _ :: _ :: base64Sextets rest).length = _
      simp only [List.length_cons, ih]
      have h3 : rest.length + 1 + 1 + 1 = rest.length + 3 := by omega
      rw [h3, Nat.add_div_right _ (by norm_num), sextetsRemLen_add_three]
      ring

/-- Every base64 alphabet character stays inside the allowed verifier
charset after the URL-safe replacements. -/
theorem base64Chars_urlSafe_allowed :
    ∀ c ∈ base64Chars, allowedVerifierChar (urlSafeChar c) = true := by decide

/-- No base64 alphabet character becomes a padding character under the
URL-safe replacements. -/
theorem base64Chars_urlSafe_ne_pad :
    ∀ c ∈ base64Chars, ¬(urlSafeChar c = '=') := by decide

/-- Stripping the trailing padding of an encoded block recovers exactly
the alphabet part. -/
theorem stripTrailingPad_append_replicate (xs : List Char) (n : Nat)
    (h : ∀ c ∈ xs, ¬(c = '=')) :
    stripTrailingPad (xs ++ List.replicate n '=') = xs := by
  unfold stripTrailingPad
  rw [List.reverse_append, List.reverse_replicate]
  have h1 : ∀ (m : Nat) (ys : List Char),
      List.dropWhile (fun c => c = '=') (List.replicate m '=' ++ ys) =
        List.dropWhile (fun c => c = '=') ys := by
    intro m
    induction m with
    | zero => intro ys; simp
    | succ k ih => intro ys; simp [List.replicate_succ, List.dropWhile, ih]
  rw [h1]
  cases hxs : xs.reverse with
  | nil =>
      have : xs = [] := by
        have := congrArg List.reverse hxs
        simpa using this
      simp [this]
  | cons a t =>
      have ha : a ∈ xs := by
        have : a ∈ xs.reverse := by rw [hxs]; exact List.mem_cons_self _ _
        simpa using this
      rw [List.dropWhile_cons]
      simp only [decide_eq_true_eq]
      rw [if_neg (h a ha)]
      rw [← hxs, List.reverse_reverse]

/-- The URL-safe base64 encoding has exactly one character per sextet. -/
theorem base64URLEncode_length (bytes : List Nat) :
    (base64URLEncode bytes).length = (base64Sextets bytes).length := by
  unfold base64URLEncode btoaChars
  rw [List.map_append, List.map_replicate]
  have hrep : urlSafeChar '=' = '=' := rfl
  rw [hrep, List.map_map, stripTrailingPad_append_replicate]
  · show (List.map _ (base64Sextets bytes)).length = _
    rw [List.length_map]
  · intro c hc
    rw [List.mem_map] at hc
    obtain ⟨i, _, rfl⟩ := hc
    exact base64Chars_urlSafe_ne_pad _ (sextetChar_mem i)

/-- Every character of the URL-safe base64 encoding lies in the allowed
verifier charset. -/
theorem base64URLEncode_chars (bytes : List Nat) :
    ∀ c ∈ (base64URLEncode bytes).toList, allowedVerifierChar c = true := by
  unfold base64URLEncode btoaChars
  rw [List.map_append, List.map_replicate]
  have hrep : urlSafeChar '=' = '=' := rfl
  rw [hrep, List.map_map, stripTrailingPad_append_replicate]
  · intro c hc
    have hc2 : c ∈ List.map (urlSafeChar ∘ sextetChar) (base64Sextets bytes) := hc
    rw [List.mem_map] at hc2
    obtain ⟨i, _, rfl⟩ := hc2
    exact base64Chars_urlSafe_allowed _ (sextetChar_mem i)
  · intro c hc
    rw [List.mem_map] at hc
    obtain ⟨i, _, rfl⟩ := hc
    exact base64Chars_urlSafe_ne_pad _ (sextetChar_mem i)

/-- Tag names decode back to their tags. -/
theorem credType_fromName_toName (t : CredType) : CredType.fromName t.toName = some t := by
  cases t <;> rfl

/-- Round trip for the filesystem sub-object. -/
theorem fileSystemCreds_roundtrip (c : FileSystemCreds) :
    FileSystemCreds.fromJson c.toJson = some c := rfl

/-- Round trip for the webdav sub-object. -/
theorem webDAVCreds_roundtrip (c : WebDAVCreds) :
    WebDAVCreds.fromJson c.toJson = some c := by
  obtain ⟨u, p, pa, tls⟩ := c
  cases tls <;> rfl

/-- Round trip for the onedrive sub-object. -/
theorem oneDriveCreds_roundtrip (c : OneDriveCreds) :
    OneDriveCreds.fromJson c.toJson = some c := by
  obtain ⟨a, b, t, p, r, bp⟩ := c
  cases a <;> cases b <;> cases t <;> cases p <;> cases r <;> cases bp <;> rfl

/-- Round trip for the joplinserver sub-object. -/
theorem joplinServerCreds_roundtrip (c : JoplinServerCreds) :
    JoplinServerCreds.fromJson c.toJson = some c := rfl

/-- Round trip for the googledrive sub-object. -/
theorem googleDriveCreds_roundtrip (c : GoogleDriveCreds) :
    GoogleDriveCreds.fromJson c.toJson = some c := by
  obtain ⟨a, b, t, p⟩ := c
  cases a <;> cases b <;> cases t <;> cases p <;> rfl

/-- Round trip for a whole credentials value. -/
theorem credentials_encode_decode_roundtrip (c : Credentials) :
    Credentials.fromJson c.toJson = some c := by
  obtain ⟨t, fs, wd, od, js, gd⟩ := c
  cases fs <;> cases wd <;> cases od <;> cases js <;> cases gd <;>
    simp [Credentials.toJson, Credentials.fromJson, getReqStr, getOptWith, lookupField,
      optField, credType_fromName_toName, fileSystemCreds_roundtrip,
      webDAVCreds_roundtrip, oneDriveCreds_roundtrip,
      joplinServerCreds_roundtrip, googleDriveCreds_roundtrip]

/-- The serialized token string is never empty (it starts with a brace). -/
theorem serializeTokenData_ne_empty (t : TokenData) : ¬(serializeTokenData t = "") := by
  intro h
  have h2 := congrArg String.length h
  rw [serializeTokenData] at h2
  simp only [String.length_append] at h2
  have h3 : ( "\x7b\"access_token\":\"").length = 17 := rfl
  have h4 : ( "").length = 0 := rfl
  omega

/-- Every character of the component charset is an allowed verifier
character. -/
theorem verifierCharset_allowed : ∀ c ∈ verifierCharset, allowedVerifierChar c = true := by
  decide

/-- C6: every run of getAuthUrlWithPKCE returns a URL whose query carries
code_challenge_method equal to S256 and a code_challenge equal to the
base64url encoding, padding stripped, of the SHA-256 digest of the UTF-8
bytes of the verifier returned by the same call. -/
theorem authorization_url_challenge_method_S256 :
    ∀ (sha256 : List Nat → List Nat) (randomBytes : List Nat) (clientId redirectUri : String),
      lookupKey "code_challenge_method"
          (getAuthUrlWithPKCE sha256 randomBytes clientId redirectUri).authUrl.params =
        some "S256" ∧
      lookupKey "code_challenge"
          (getAuthUrlWithPKCE sha256 randomBytes clientId redirectUri).authUrl.params =
        some (base64URLEncode (sha256 (utf8Bytes
          (getAuthUrlWithPKCE sha256 randomBytes clientId redirectUri).codeVerifier))) := by
  intro sha256 randomBytes clientId redirectUri
  exact ⟨rfl, rfl⟩

/-- C7: every verifier produced by generateCodeVerifier (on the 32 random
bytes the source draws) and by generateRandomString (on the 128 random
bytes the source draws) has length between 43 and 128 and consists only of
characters from the allowed charset. -/
theorem generated_verifiers_length_and_charset :
    (∀ randomBytes : List Nat, randomBytes.length = 32 →
      43 ≤ (generateCodeVerifier randomBytes).length ∧
      (generateCodeVerifier randomBytes).length ≤ 128 ∧
      ∀ c ∈ (generateCodeVerifier randomBytes).toList, allowedVerifierChar c = true) ∧
    (∀ randomValues : List Nat, randomValues.length = 128 →
      43 ≤ (generateRandomString randomValues).length ∧
      (generateRandomString randomValues).length ≤ 128 ∧
      ∀ c ∈ (generateRandomString randomValues).toList, allowedVerifierChar c = true) := by
  constructor
  · intro randomBytes hlen
    have h43 : (generateCodeVerifier randomBytes).length = 43 := by
      unfold generateCodeVerifier
      rw [base64URLEncode_length, base64Sextets_length, hlen]
      decide
    refine ⟨by omega, by omega, ?_⟩
    exact base64URLEncode_chars randomBytes
  · intro randomValues hlen
    have hl : (generateRandomString randomValues).length = randomValues.length := by
      unfold generateRandomString
      show (String.mk _).data.length = _
      rw [List.length_map]
    refine ⟨by omega, by omega, ?_⟩
    intro c hc
    have hc2 : c ∈ randomValues.map
        (fun b => verifierCharset.getD (b % verifierCharset.length) 'A') := hc
    rw [List.mem_map] at hc2
    obtain ⟨b, _, rfl⟩ := hc2
    rcases listGetD_mem_or_eq verifierCharset (b % verifierCharset.length) 'A' with h | h
    · exact verifierCharset_allowed _ h
    · rw [h]; decide

set_option maxRecDepth 4000 in
/-- Witness for C7 at concrete random bytes. -/
theorem generated_verifiers_length_and_charset_witness :
    (List.replicate 32 7).length = 32 ∧
    43 ≤ (generateCodeVerifier (List.replicate 32 7)).length ∧
    (generateCodeVerifier (List.replicate 32 7)).length ≤ 128 ∧
    (List.replicate 128 9).length = 128 ∧
    43 ≤ (generateRandomString (List.replicate 128 9)).length ∧
    (generateRandomString (List.replicate 128 9)).length ≤ 128 :=
  ⟨by decide,
   (generated_verifiers_length_and_charset.1 (List.replicate 32 7) (by decide)).1,
   (generated_verifiers_length_and_charset.1 (List.replicate 32 7) (by decide)).2.1,
   by decide,
   (generated_verifiers_length_and_charset.2 (List.replicate 128 9) (by decide)).1,
   (generated_verifiers_length_and_charset.2 (List.replicate 128 9) (by decide)).2.1⟩

/-- C2: the token-exchange request bodies (service level and component
level) are form bodies carrying grant_type authorization_code, code,
redirect_uri, client_id and code_verifier, and never a client secret. -/
theorem exchange_request_body_fields_no_secret :
    ∀ (clientId code redirectUri codeVerifier : String) (scopes : List String),
      (lookupKey "grant_type" (exchangeCodeBody clientId code redirectUri codeVerifier) =
          some "authorization_code" ∧
       lookupKey "code" (exchangeCodeBody clientId code redirectUri codeVerifier) = some code ∧
       lookupKey "redirect_uri" (exchangeCodeBody clientId code redirectUri codeVerifier) =
          some redirectUri ∧
       lookupKey "client_id" (exchangeCodeBody clientId code redirectUri codeVerifier) =
          some clientId ∧
       lookupKey "code_verifier" (exchangeCodeBody clientId code redirectUri codeVerifier) =
          some codeVerifier ∧
       ¬( "client_secret" ∈
          (exchangeCodeBody clientId code redirectUri codeVerifier).map Prod.fst)) ∧
      (lookupKey "grant_type" (componentExchangeBody clientId scopes code redirectUri codeVerifier) =
          some "authorization_code" ∧
       lookupKey "code" (componentExchangeBody clientId scopes code redirectUri codeVerifier) =
          some code ∧
       lookupKey "redirect_uri" (componentExchangeBody clientId scopes code redirectUri codeVerifier) =
          some redirectUri ∧
       lookupKey "client_id" (componentExchangeBody clientId scopes code redirectUri codeVerifier) =
          some clientId ∧
       lookupKey "code_verifier" (componentExchangeBody clientId scopes code redirectUri codeVerifier) =
          some codeVerifier ∧
       ¬( "client_secret" ∈
          (componentExchangeBody clientId scopes code redirectUri codeVerifier).map Prod.fst)) := by
  intro clientId code redirectUri codeVerifier scopes
  refine ⟨⟨rfl, rfl, rfl, rfl, rfl, ?_⟩, ⟨rfl, rfl, rfl, rfl, rfl, ?_⟩⟩
  · intro h
    simp [exchangeCodeBody] at h
  · intro h
    simp [componentExchangeBody] at h

/-- C8: a pending connection written to the Continuation Store before
navigation is recovered unchanged by the post-reload read (the
serialize-then-parse round trip at the store boundary is the identity on
the credentials object). -/
theorem pending_connection_roundtrip :
    ∀ (creds : Credentials) (s : SessionStore),
      readPendingCredentials (writePendingCredentials creds s) = some creds := by
  intro creds s
  simp [readPendingCredentials, writePendingCredentials, credentials_encode_decode_roundtrip]

/-- C3 is refuted at a concrete input: on a provider-error return URL the
handler ends Failed with no token call and a stripped URL and clears the
pending intent, but the PKCE verifier and the replay-guard marker survive
in the store, so the Continuation Store is not empty. -/
theorem provider_error_counterexample :
    let env : Env := ⟨fun _ _ => .error "no", fun _ => .error "no", fun _ => [], [], ""⟩
    let r := handleOAuthCallback env ⟨none, some "access_denied", some "User cancelled"⟩
               ⟨none, some "qrs", some "v", none⟩
    r.outcome = .failed ∧ r.calls = [] ∧ r.urlQuery = none ∧
    r.store.pendingCreds = none ∧
    r.store.codeVerifier = some "v" ∧ ¬(r.store.codeVerifier = none) ∧
    r.store.processedCode = some "qrs" ∧ ¬(r.store.processedCode = none) :=
  ⟨rfl, rfl, rfl, rfl, rfl, by decide, rfl, by decide⟩

/-- C3 (amended): on a provider-error return URL the coordinator ends
Failed, makes no token endpoint call, strips the parameters from the
visible URL, surfaces the provider description (or code), and clears the
pending connection intent — while the PKCE verifier and the replay-guard
marker are left unchanged in the Continuation Store. -/
theorem provider_error_fails_clears_pending_only :
    ∀ (env : Env) (c d : Option String) (e : String) (s : SessionStore),
      handleOAuthCallback env ⟨c, some e, d⟩ s =
        { store := { s with pendingCreds := none }, urlQuery := none,
          errorMsg := some (jsOr d e), connected := false, savedProfileCreds := none,
          calls := [], outcome := .failed } ∧
      (handleOAuthCallback env ⟨c, some e, d⟩ s).store.codeVerifier = s.codeVerifier ∧
      (handleOAuthCallback env ⟨c, some e, d⟩ s).store.processedCode = s.processedCode := by
  intro env c d e s
  exact ⟨rfl, rfl, rfl⟩

/-- C4 is refuted at a concrete input: a return URL carrying a code while
the Continuation Store holds neither a verifier nor a pending intent makes
no token call, but it surfaces no verifier-missing error and does not end
Failed (the handler takes the manual-flow branch instead). -/
theorem code_without_pending_counterexample :
    let env : Env := ⟨fun _ _ => .error "no", fun _ => .error "no", fun _ => [], [], ""⟩
    let r := handleOAuthCallback env ⟨some "xyz", none, none⟩ ⟨none, none, none, none⟩
    r.errorMsg = none ∧ ¬(r.outcome = .failed) ∧ r.calls = [] ∧ r.outcome = .manual :=
  ⟨rfl, by decide, rfl, rfl⟩

/-- C4 (amended): if the return URL carries a code that the replay guard
has not seen, the Continuation Store holds a pending OneDrive connection
intent but no PKCE verifier, then the flow fails with the verifier-missing
error, no token endpoint call is made, and every Continuation Store key is
cleared. -/
theorem verifier_missing_fails_without_exchange :
    ∀ (env : Env) (code : String) (s : SessionStore) (creds : Credentials)
      (od : OneDriveCreds),
      ¬(s.processedCode = some code) →
      s.pendingCreds = some creds.toJson →
      creds.type = .OneDrive →
      creds.onedrive = some od →
      s.codeVerifier = none →
      (handleOAuthCallback env ⟨some code, none, none⟩ s).errorMsg =
        some "PKCE code_verifier not found. Please try logging in again." ∧
      (handleOAuthCallback env ⟨some code, none, none⟩ s).calls = [] ∧
      (handleOAuthCallback env ⟨some code, none, none⟩ s).outcome = .failed ∧
      (handleOAuthCallback env ⟨some code, none, none⟩ s).store.pendingCreds = none ∧
      (handleOAuthCallback env ⟨some code, none, none⟩ s).store.codeVerifier = none ∧
      (handleOAuthCallback env ⟨some code, none, none⟩ s).store.processedCode = none := by
  intro env code s creds od h1 h2 h3 h4 h5
  obtain ⟨sp, sm, sv, so⟩ := s
  obtain ⟨t, fs, wd, on1, js, gd⟩ := creds
  simp only at h1 h2 h3 h4 h5
  subst h2 h3 h4 h5
  simp only [handleOAuthCallback, replayGuardCheck, if_neg h1,
    credentials_encode_decode_roundtrip, oauthCatch]
  exact ⟨rfl, rfl, rfl, rfl, rfl, rfl⟩

/-- Witness for C4 (amended) at a concrete store and code. -/
theorem verifier_missing_fails_without_exchange_witness :
    (handleOAuthCallback
        ⟨fun _ _ => .error "no", fun _ => .error "no", fun _ => [], [], ""⟩
        ⟨some "xyz", none, none⟩
        ⟨some (Credentials.toJson
          ⟨.OneDrive, none, none, some ⟨some "cid", none, none, none, none, none⟩,
           none, none⟩), none, none, none⟩).errorMsg =
      some "PKCE code_verifier not found. Please try logging in again." ∧
    (handleOAuthCallback
        ⟨fun _ _ => .error "no", fun _ => .error "no", fun _ => [], [], ""⟩
        ⟨some "xyz", none, none⟩
        ⟨some (Credentials.toJson
          ⟨.OneDrive, none, none, some ⟨some "cid", none, none, none, none, none⟩,
           none, none⟩), none, none, none⟩).calls = [] :=
  ⟨(verifier_missing_fails_without_exchange
      ⟨fun _ _ => .error "no", fun _ => .error "no", fun _ => [], [], ""⟩ "xyz"
      ⟨some (Credentials.toJson
        ⟨.OneDrive, none, none, some ⟨some "cid", none, none, none, none, none⟩,
         none, none⟩), none, none, none⟩
      ⟨.OneDrive, none, none, some ⟨some "cid", none, none, none, none, none⟩, none, none⟩
      ⟨some "cid", none, none, none, none, none⟩
      (by decide) rfl rfl rfl rfl).1,
   (verifier_missing_fails_without_exchange
      ⟨fun _ _ => .error "no", fun _ => .error "no", fun _ => [], [], ""⟩ "xyz"
      ⟨some (Credentials.toJson
        ⟨.OneDrive, none, none, some ⟨some "cid", none, none, none, none, none⟩,
         none, none⟩), none, none, none⟩
      ⟨.OneDrive, none, none, some ⟨some "cid", none, none, none, none, none⟩, none, none⟩
      ⟨some "cid", none, none, none, none, none⟩
      (by decide) rfl rfl rfl rfl).2.1⟩

/-- C9: whenever JoplinApiService.connect fails (the storage constructor
or its init throws), the service is left fully disconnected — the storage
reference is cleared, isInitialized reports false — and the surfaced error
message names the credential type. -/
theorem connect_failure_leaves_disconnected :
    ∀ {σ : Type} (ctor : StorageSpec → Except String σ)
      (initStorage : σ → Except String Unit) (creds : Credentials)
      (st : JoplinApiState σ) (e : String),
      (JoplinApiService.connect ctor initStorage creds st).2 = .error e →
      (JoplinApiService.connect ctor initStorage creds st).1.storage = none ∧
      (JoplinApiService.connect ctor initStorage creds st).1.initialized = false ∧
      JoplinApiService.isInitialized
        (JoplinApiService.connect ctor initStorage creds st).1 = false ∧
      ∃ m, e = "Failed to connect to " ++ creds.type.toName ++ ": " ++ m := by
  intro σ ctor initStorage creds st e h
  unfold JoplinApiService.connect at h
  unfold JoplinApiService.connect JoplinApiService.isInitialized
  cases hc : ctor (buildStorageSpec st.hasOAuthFlowHandler creds) with
  | error m =>
      rw [hc] at h
      simp only [Except.error.injEq] at h
      exact ⟨rfl, rfl, rfl, m, h.symm⟩
  | ok stor =>
      rw [hc] at h
      cases hi : initStorage stor with
      | error m =>
          simp only [hi, Except.error.injEq] at h
          exact ⟨by simp [hi], by simp [hi], by simp [hi], m, h.symm⟩
      | ok u =>
          simp [hi] at h

/-- Witness for C9: a constructor that throws at a concrete credential. -/
theorem connect_failure_leaves_disconnected_witness :
    (JoplinApiService.connect (σ := Unit) (fun _ => .error "boom") (fun _ => .ok ())
        ⟨.FileSystem, some ⟨ "/tmp/sync"⟩, none, none, none, none⟩
        ⟨none, false, false⟩).2 =
      .error "Failed to connect to FileSystem: boom" ∧
    (JoplinApiService.connect (σ := Unit) (fun _ => .error "boom") (fun _ => .ok ())
        ⟨.FileSystem, some ⟨ "/tmp/sync"⟩, none, none, none, none⟩
        ⟨none, false, false⟩).1.storage = none ∧
    JoplinApiService.isInitialized
      (JoplinApiService.connect (σ := Unit) (fun _ => .error "boom") (fun _ => .ok ())
        ⟨.FileSystem, some ⟨ "/tmp/sync"⟩, none, none, none, none⟩
        ⟨none, false, false⟩).1 = false :=
  ⟨rfl,
   (connect_failure_leaves_disconnected (fun _ => .error "boom") (fun _ => .ok ())
      ⟨.FileSystem, some ⟨ "/tmp/sync"⟩, none, none, none, none⟩
      ⟨none, false, false⟩ "Failed to connect to FileSystem: boom" rfl).1,
   (connect_failure_leaves_disconnected (fun _ => .error "boom") (fun _ => .ok ())
      ⟨.FileSystem, some ⟨ "/tmp/sync"⟩, none, none, none, none⟩
      ⟨none, false, false⟩ "Failed to connect to FileSystem: boom" rfl).2.2.1⟩

/-- C10: after deleteProfile the active-profile pointer never designates
the deleted id — the record is gone, the active id differs from the
deleted id, and getActiveProfile either returns nothing or returns a
profile stored under a surviving key. -/
theorem delete_profile_never_leaves_active_dangling :
    ∀ (st : ProfileStore) (profileId : String),
      getProfile profileId (deleteProfile profileId st) = none ∧
      ¬(getActiveProfileId (deleteProfile profileId st) = some profileId) ∧
      (getActiveProfile (deleteProfile profileId st) = none ∨
        ∃ j p, ¬(j = profileId) ∧
          getActiveProfileId (deleteProfile profileId st) = some j ∧
          getProfile j (deleteProfile profileId st) = some p ∧
          getActiveProfile (deleteProfile profileId st) = some p) := by
  intro st profileId
  by_cases h : st.activeId = some profileId
  · have hd : deleteProfile profileId st =
        { profiles := fun k => if k = profileId then none else st.profiles k,
          activeId := none } := by
      unfold deleteProfile getActiveProfileId clearActiveProfile
      rw [if_pos h]
    rw [hd]
    exact ⟨by simp [getProfile], by simp [getActiveProfileId],
      .inl (by simp [getActiveProfile, getActiveProfileId, getProfile])⟩
  · have hd : deleteProfile profileId st =
        { profiles := fun k => if k = profileId then none else st.profiles k,
          activeId := st.activeId } := by
      unfold deleteProfile getActiveProfileId clearActiveProfile
      rw [if_neg h]
    rw [hd]
    refine ⟨by simp [getProfile], by simpa [getActiveProfileId] using h, ?_⟩
    cases ha : st.activeId with
    | none => exact .inl (by simp [getActiveProfile, getActiveProfileId, ha])
    | some j =>
        have hj : ¬(j = profileId) := fun hje => h (by rw [ha, hje])
        cases hp : st.profiles j with
        | none =>
            exact .inl (by
              simp [getActiveProfile, getActiveProfileId, getProfile, ha, hp, if_neg hj])
        | some p =>
            exact .inr ⟨j, p, hj, by simp [getActiveProfileId, ha],
              by simp [getProfile, if_neg hj, hp],
              by simp [getActiveProfile, getActiveProfileId, getProfile, ha, if_neg hj, hp]⟩

/-- Witness for C10 at a concrete store whose active profile is deleted. -/
theorem delete_profile_never_leaves_active_dangling_witness :
    getProfile "p1"
        (deleteProfile "p1"
          ⟨fun k => if k = "p1"
              then some ⟨ "p1", "n", .FileSystem,
                ⟨.FileSystem, some ⟨ "/tmp"⟩, none, none, none, none⟩, 0, 0⟩
              else none,
            some "p1"⟩) = none ∧
    ¬(getActiveProfileId
        (deleteProfile "p1"
          ⟨fun k => if k = "p1"
              then some ⟨ "p1", "n", .FileSystem,
                ⟨.FileSystem, some ⟨ "/tmp"⟩, none, none, none, none⟩, 0, 0⟩
              else none,
            some "p1"⟩) = some "p1") :=
  ⟨(delete_profile_never_leaves_active_dangling
      ⟨fun k => if k = "p1"
          then some ⟨ "p1", "n", .FileSystem,
            ⟨.FileSystem, some ⟨ "/tmp"⟩, none, none, none, none⟩, 0, 0⟩
          else none,
        some "p1"⟩ "p1").1,
   (delete_profile_never_leaves_active_dangling
      ⟨fun k => if k = "p1"
          then some ⟨ "p1", "n", .FileSystem,
            ⟨.FileSystem, some ⟨ "/tmp"⟩, none, none, none, none⟩, 0, 0⟩
          else none,
        some "p1"⟩ "p1").2.1⟩

/-- C5: when the return URL carries a not-yet-processed code and the
matching verifier and pending OneDrive intent are present, exactly one
POST with grant_type authorization_code and that code is made to the token
endpoint; on a successful exchange response the coordinator ends Completed,
the Continuation Store is empty (pending intent, verifier and replay
marker all cleared), and the resulting token is attached to the pending
connection handed to the caller. -/
theorem code_with_verifier_single_exchange_completes :
    ∀ (env : Env) (code v : String) (s : SessionStore) (creds : Credentials)
      (od : OneDriveCreds) (tok : TokenData),
      ¬(s.processedCode = some code) →
      s.pendingCreds = some creds.toJson →
      creds.type = .OneDrive →
      creds.onedrive = some od →
      s.codeVerifier = some v →
      env.net code v = .ok tok →
      (handleOAuthCallback env ⟨some code, none, none⟩ s).calls =
        [exchangeCodeCall (jsOr od.clientId "") code (jsOr od.redirectUri env.origin) v] ∧
      (exchangeCodeCall (jsOr od.clientId "") code (jsOr od.redirectUri env.origin) v).url =
        tokenEndpoint ∧
      lookupKey "grant_type"
          (exchangeCodeCall (jsOr od.clientId "") code (jsOr od.redirectUri env.origin) v).body =
        some "authorization_code" ∧
      lookupKey "code"
          (exchangeCodeCall (jsOr od.clientId "") code (jsOr od.redirectUri env.origin) v).body =
        some code ∧
      (handleOAuthCallback env ⟨some code, none, none⟩ s).outcome = .completed ∧
      (handleOAuthCallback env ⟨some code, none, none⟩ s).store.pendingCreds = none ∧
      (handleOAuthCallback env ⟨some code, none, none⟩ s).store.codeVerifier = none ∧
      (handleOAuthCallback env ⟨some code, none, none⟩ s).store.processedCode = none ∧
      (handleOAuthCallback env ⟨some code, none, none⟩ s).savedProfileCreds =
        some { creds with
          onedrive := some { od with authToken := some (serializeTokenData tok) } } := by
  intro env code v s creds od tok h1 h2 h3 h4 h5 h6
  obtain ⟨sp, sm, sv, so⟩ := s
  obtain ⟨t, fs, wd, on1, js, gd⟩ := creds
  simp only at h1 h2 h3 h4 h5
  subst h2 h3 h4 h5
  have hna : ¬(serializeTokenData tok = "") := serializeTokenData_ne_empty tok
  have hng : ¬(CredType.OneDrive = CredType.GoogleDrive) := by decide
  refine ⟨?_, rfl, rfl, rfl, ?_, ?_, ?_, ?_, ?_⟩ <;>
    simp only [handleOAuthCallback, replayGuardCheck, if_neg h1,
      credentials_encode_decode_roundtrip, h6, handleConnect, connectGeneral, jsBlank,
      writePendingCredentials, decide_eq_true_eq, hna, hng, and_false, and_true,
      true_and, false_and, eq_self_iff_true, if_true, if_false] <;>
    first
      | rfl
      | (split <;> rfl)

/-- Witness for C5 at a concrete code, verifier, store and success
network. -/
theorem code_with_verifier_single_exchange_completes_witness :
    (handleOAuthCallback
        ⟨fun _ _ => .ok ⟨ "at", "rt", "Bearer", 3600, "sc"⟩, fun _ => .ok (), fun _ => [], [],
          "http://localhost"⟩
        ⟨some "abc123", none, none⟩
        ⟨some (Credentials.toJson
          ⟨.OneDrive, none, none,
           some ⟨some "cid", none, none, none, some "http://localhost:5173", none⟩,
           none, none⟩), none, some "ver", none⟩).calls =
      [exchangeCodeCall (jsOr (some "cid") "") "abc123"
        (jsOr (some "http://localhost:5173") "http://localhost") "ver"] ∧
    (handleOAuthCallback
        ⟨fun _ _ => .ok ⟨ "at", "rt", "Bearer", 3600, "sc"⟩, fun _ => .ok (), fun _ => [], [],
          "http://localhost"⟩
        ⟨some "abc123", none, none⟩
        ⟨some (Credentials.toJson
          ⟨.OneDrive, none, none,
           some ⟨some "cid", none, none, none, some "http://localhost:5173", none⟩,
           none, none⟩), none, some "ver", none⟩).outcome = .completed ∧
    (handleOAuthCallback
        ⟨fun _ _ => .ok ⟨ "at", "rt", "Bearer", 3600, "sc"⟩, fun _ => .ok (), fun _ => [], [],
          "http://localhost"⟩
        ⟨some "abc123", none, none⟩
        ⟨some (Credentials.toJson
          ⟨.OneDrive, none, none,
           some ⟨some "cid", none, none, none, some "http://localhost:5173", none⟩,
           none, none⟩), none, some "ver", none⟩).store.pendingCreds = none ∧
    (handleOAuthCallback
        ⟨fun _ _ => .ok ⟨ "at", "rt", "Bearer", 3600, "sc"⟩, fun _ => .ok (), fun _ => [], [],
          "http://localhost"⟩
        ⟨some "abc123", none, none⟩
        ⟨some (Credentials.toJson
          ⟨.OneDrive, none, none,
           some ⟨some "cid", none, none, none, some "http://localhost:5173", none⟩,
           none, none⟩), none, some "ver", none⟩).store.codeVerifier = none ∧
    (handleOAuthCallback
        ⟨fun _ _ => .ok ⟨ "at", "rt", "Bearer", 3600, "sc"⟩, fun _ => .ok (), fun _ => [], [],
          "http://localhost"⟩
        ⟨some "abc123", none, none⟩
        ⟨some (Credentials.toJson
          ⟨.OneDrive, none, none,
           some ⟨some "cid", none, none, none, some "http://localhost:5173", none⟩,
           none, none⟩), none, some "ver", none⟩).store.processedCode = none := by
  have h := code_with_verifier_single_exchange_completes
    ⟨fun _ _ => .ok ⟨ "at", "rt", "Bearer", 3600, "sc"⟩, fun _ => .ok (), fun _ => [], [],
      "http://localhost"⟩
    "abc123" "ver"
    ⟨some (Credentials.toJson
      ⟨.OneDrive, none, none,
       some ⟨some "cid", none, none, none, some "http://localhost:5173", none⟩,
       none, none⟩), none, some "ver", none⟩
    ⟨.OneDrive, none, none,
     some ⟨some "cid", none, none, none, some "http://localhost:5173", none⟩, none, none⟩
    ⟨some "cid", none, none, none, some "http://localhost:5173", none⟩
    ⟨ "at", "rt", "Bearer", 3600, "sc"⟩
    (by decide) rfl rfl rfl rfl rfl
  exact ⟨h.1, h.2.2.2.2.1, h.2.2.2.2.2.1, h.2.2.2.2.2.2.1, h.2.2.2.2.2.2.2.1⟩

/-- Helper: a page load with no stored pending intent never reaches the
token endpoint. -/
theorem callback_no_pending_makes_no_calls :
    ∀ (env : Env) (url : CallbackUrl) (s : SessionStore),
      s.pendingCreds = none → (handleOAuthCallback env url s).calls = [] := by
  intro env url s hp
  obtain ⟨sp, sm, sv, so⟩ := s
  simp only at hp
  subst hp
  obtain ⟨uc, ue, ud⟩ := url
  cases ue with
  | some e => rfl
  | none =>
      cases uc with
      | none => rfl
      | some c =>
          simp only [handleOAuthCallback, replayGuardCheck]
          split
          · rfl
          · rename_i s1 heq
            by_cases hc : sm = some c
            · rw [if_pos hc] at heq; cases heq
            · rw [if_neg hc] at heq
              obtain rfl := Option.some.inj heq
              rfl

/-- C1: two deliveries of the same authorization code result in exactly
one call to the token endpoint: with the pending OneDrive intent and the
verifier in place, the first delivery sets the replay-guard marker to the
code and performs exactly one exchange; a delivery of the same code while
the marker is set is an idempotent no-op performing no exchange; and a
further delivery after the first run finishes also performs no exchange. -/
theorem duplicate_code_delivery_single_exchange :
    ∀ (env : Env) (code v : String) (s : SessionStore) (creds : Credentials)
      (od : OneDriveCreds),
      ¬(s.processedCode = some code) →
      s.pendingCreds = some creds.toJson →
      creds.type = .OneDrive →
      creds.onedrive = some od →
      s.codeVerifier = some v →
      replayGuardCheck code s = some { s with processedCode := some code } ∧
      (handleOAuthCallback env ⟨some code, none, none⟩ s).calls.length = 1 ∧
      handleOAuthCallback env ⟨some code, none, none⟩
          { s with processedCode := some code } =
        { store := { s with processedCode := some code },
          urlQuery := some ⟨some code, none, none⟩, errorMsg := none, connected := false,
          savedProfileCreds := none, calls := [], outcome := .idle } ∧
      (handleOAuthCallback env ⟨some code, none, none⟩
        (handleOAuthCallback env ⟨some code, none, none⟩ s).store).calls = [] := by
  intro env code v s creds od h1 h2 h3 h4 h5
  obtain ⟨sp, sm, sv, so⟩ := s
  obtain ⟨t, fs, wd, on1, js, gd⟩ := creds
  simp only at h1 h2 h3 h4 h5
  subst h2 h3 h4 h5
  have hng : ¬(CredType.OneDrive = CredType.GoogleDrive) := by decide
  refine ⟨?_, ?_, ?_, ?_⟩
  · simp [replayGuardCheck, h1]
  · simp only [handleOAuthCallback, replayGuardCheck, if_neg h1,
      credentials_encode_decode_roundtrip, eq_self_iff_true, if_true, and_true, true_and, if_false]
    split <;> rfl
  · simp [handleOAuthCallback, replayGuardCheck]
  · apply callback_no_pending_makes_no_calls
    simp only [handleOAuthCallback, replayGuardCheck, if_neg h1,
      credentials_encode_decode_roundtrip, eq_self_iff_true, if_true, and_true, true_and, if_false]
    split <;>
      first
        | rfl
        | (simp only [handleConnect, connectGeneral, jsBlank, writePendingCredentials,
             decide_eq_true_eq, hng, serializeTokenData_ne_empty, and_false, and_true,
             true_and, false_and, eq_self_iff_true, if_true, if_false]
           split <;> rfl)

/-- Witness for C1 at a concrete code, store and network. -/
theorem duplicate_code_delivery_single_exchange_witness :
    (handleOAuthCallback
        ⟨fun _ _ => .ok ⟨ "at", "rt", "Bearer", 3600, "sc"⟩, fun _ => .ok (), fun _ => [], [],
          "http://localhost"⟩
        ⟨some "qrs", none, none⟩
        ⟨some (Credentials.toJson
          ⟨.OneDrive, none, none,
           some ⟨some "cid", none, none, none, some "http://localhost:5173", none⟩,
           none, none⟩), none, some "ver", none⟩).calls.length = 1 ∧
    (handleOAuthCallback
        ⟨fun _ _ => .ok ⟨ "at", "rt", "Bearer", 3600, "sc"⟩, fun _ => .ok (), fun _ => [], [],
          "http://localhost"⟩
        ⟨some "qrs", none, none⟩
        (handleOAuthCallback
          ⟨fun _ _ => .ok ⟨ "at", "rt", "Bearer", 3600, "sc"⟩, fun _ => .ok (), fun _ => [], [],
            "http://localhost"⟩
          ⟨some "qrs", none, none⟩
          ⟨some (Credentials.toJson
            ⟨.OneDrive, none, none,
             some ⟨some "cid", none, none, none, some "http://localhost:5173", none⟩,
             none, none⟩), none, some "ver", none⟩).store).calls = [] := by
  have h := duplicate_code_delivery_single_exchange
    ⟨fun _ _ => .ok ⟨ "at", "rt", "Bearer", 3600, "sc"⟩, fun _ => .ok (), fun _ => [], [],
      "http://localhost"⟩
    "qrs" "ver"
    ⟨some (Credentials.toJson
      ⟨.OneDrive, none, none,
       some ⟨some "cid", none, none, none, some "http://localhost:5173", none⟩,
       none, none⟩), none, some "ver", none⟩
    ⟨.OneDrive, none, none,
     some ⟨some "cid", none, none, none, some "http://localhost:5173", none⟩, none, none⟩
    ⟨some "cid", none, none, none, some "http://localhost:5173", none⟩
    (by decide) rfl rfl rfl rfl
  exact ⟨h.2.1, h.2.2.2⟩

/-- Witness for C2 at concrete request parameters. -/
theorem exchange_request_body_fields_no_secret_witness :
    lookupKey "grant_type" (exchangeCodeBody "cid" "abc123" "http://localhost" "ver") =
      some "authorization_code" ∧
    lookupKey "code" (exchangeCodeBody "cid" "abc123" "http://localhost" "ver") =
      some "abc123" ∧
    ¬( "client_secret" ∈
        (exchangeCodeBody "cid" "abc123" "http://localhost" "ver").map Prod.fst) :=
  ⟨(exchange_request_body_fields_no_secret "cid" "abc123" "http://localhost" "ver" []).1.1,
   (exchange_request_body_fields_no_secret "cid" "abc123" "http://localhost" "ver" []).1.2.1,
   (exchange_request_body_fields_no_secret "cid" "abc123" "http://localhost" "ver"
     []).1.2.2.2.2.2⟩
